import Mathlib

/-!
Verification of the claude-code-control session-orchestration engine.

The repository drives an interactive CLI through simulated keystrokes and
periodic snapshots.  The embedding below translates the state-relevant parts
of the JavaScript sources into Lean:

* namespace `Index`      — `src/index.js`, the AppleScript/Terminal.app engine
                           (session map, launch, send, getStatus, close,
                           closeAll, watchForPrompts, recording lifecycle);
* namespace `V3`         — the vision-based rewrite (`src/unnamed/part_001`):
                           its `send` with the screenshot/OCR polling loop;
* namespace `WatcherJS`  — `src/watcher.js`, the standalone polling watcher
                           with its `PROMPT_COOLDOWN` / `EVENT_COOLDOWN`.

Modelling conventions, uniform across the file:
* The JavaScript `Map` of sessions is an association list `List (Nat × α)`
  with `mget` / `mset` / `mdel` mirroring `get` / `set` / `delete`
  (keys are unique in every reachable state, so `filter`-based delete
  coincides with `Map.delete`).
* Wall-clock reads (`Date.now()`) are threaded in as explicit `Nat`
  millisecond parameters.
* External adapters (AppleScript, `screencapture`, ffmpeg, stdin writes) are
  pure effects recorded in an `Effect` trace, or oracles (`Nat → Option
  String` for screenshot+OCR, `Nat → Bool` for adapter failure).
* Regex matchers from the pattern registries are abstracted as Boolean
  predicates `String → Bool`; the concrete `[Y/n]`-style entries used by
  witnesses are given executable case-insensitive substring tests.
-/

namespace CCMap

/-- `Map.get`: first entry with the given key. -/
def mget {α : Type} (id : Nat) : List (Nat × α) → Option α
  | [] => none
  | (k, v) :: rest => if k = id then some v else mget id rest

/-- `Map.set`: replace the entry with the given key, else append. -/
def mset {α : Type} (id : Nat) (v : α) : List (Nat × α) → List (Nat × α)
  | [] => [(id, v)]
  | (k, w) :: rest => if k = id then (id, v) :: rest else (k, w) :: mset id v rest

/-- `Map.delete`: remove the entry with the given key (keys are unique in
every reachable state, so removing all matches coincides with `Map.delete`). -/
def mdel {α : Type} (id : Nat) : List (Nat × α) → List (Nat × α)
  | [] => []
  | (k, v) :: rest => if k = id then mdel id rest else (k, v) :: mdel id rest

/-- `Array.from(map.keys())`. -/
def mkeys {α : Type} (m : List (Nat × α)) : List Nat :=
  m.map (·.1)

end CCMap

open CCMap

/-- Error taxonomy of the engine: each constructor corresponds to one
`throw new Error(...)` site in the sources (`Invalid session: ${id}`,
`Project path does not exist: ...`, `already recording`, `no active
recording`, `Could not determine Terminal window bounds`, `already has an
active watcher`, and `Session not ready: ${id}` from the vision rewrite). -/
inductive CCError
  | invalidSession (id : Nat)
  | pathNotFound (path : String)
  | alreadyRecording (id : Nat)
  | noActiveRecording (id : Nat)
  | boundsUnavailable
  | watcherActive (id : Nat)
  | sessionNotReady (id : Nat)
deriving DecidableEq, Repr

namespace Index

/-- Entries of `session.sessionLog` in `src/index.js` (pushed by `launch`,
`send`, and `verifyScreen`). -/
inductive LogEntry
  | screenshot (timestamp : Nat) (path : String) (event : String)
  | command (timestamp : Nat) (command : String)
  | response (timestamp : Nat) (duration_ms : Nat) (screenshot : Option String)
  | verification (timestamp : Nat) (screenshot : String) (description : String)
deriving DecidableEq, Repr

/-- `session.recording` handle set by `startRecording` (the spawned ffmpeg
process itself is an external effect and is not part of the state). -/
structure Recording where
  videoPath : String
  startTime : Nat
deriving DecidableEq, Repr

/-- `session.watcher` handle set by `watchForPrompts` (the `setInterval` id
is opaque; only the polling interval is observable). -/
structure Watcher where
  intervalMs : Nat
deriving DecidableEq, Repr

/-- The session object built by `launch` in `src/index.js`. -/
structure Session where
  id : Nat
  path : String
  created_at : Nat
  commandCount : Nat
  sessionLog : List LogEntry
  ready : Bool
  recording : Option Recording
  watcher : Option Watcher
deriving DecidableEq, Repr

/-- The module-level mutable state of `src/index.js`: the `sessions` map and
the `sessionCounter`. -/
structure CCState where
  sessionCounter : Nat
  sessions : List (Nat × Session)
deriving DecidableEq, Repr

/-- Externally observable side effects of the engine (keystroke injections
and sub-component stops), recorded as a trace. -/
inductive Effect
  | stopWatcherE
  | stopRecordingE (videoPath : String)
  | focus
  | key (name : String)
  | typeTextE (text : String)
  | enter
deriving DecidableEq, Repr

/-- `launch(projectPath)` from `src/index.js:510`.  `++sessionCounter` is
evaluated before `fs.existsSync` (modelled by the `pathExists` oracle), so a
failed launch still consumes the ID.  `path.resolve` is abstracted as the
identity; the post-launch screenshot is the `screenshot` oracle, logged when
it succeeds; `session.ready` is set to `true` before the session is
registered. -/
def launch (now : Nat) (pathExists : Bool) (screenshot : Option String)
    (projectPath : String) (st : CCState) : Except CCError Nat × CCState :=
  let sessionId := st.sessionCounter + 1
  let st1 : CCState := { st with sessionCounter := sessionId }
  if !pathExists then
    (.error (.pathNotFound projectPath), st1)
  else
    let launchLog : List LogEntry :=
      match screenshot with
      | some p => [.screenshot now p "launch"]
      | none => []
    let session : Session :=
      { id := sessionId, path := projectPath, created_at := now,
        commandCount := 0, sessionLog := launchLog, ready := true,
        recording := none, watcher := none }
    (.ok sessionId, { st1 with sessions := mset sessionId session st1.sessions })

/-- Result object returned by `send` in `src/index.js:601`. -/
structure SendResult where
  sessionId : Nat
  command : String
  duration_ms : Nat
  screenshot : Option String
  status : String
deriving DecidableEq, Repr

/-- `send(sessionId, command, waitSeconds)` from `src/index.js:566`.  An
unknown session throws `Invalid session` before any mutation; otherwise
`session.commandCount++` runs once, a `command` entry and then a `response`
entry are appended, and the result status is always `'sent'`.  `now` is the
call time, `now2` the time after the fixed `waitSeconds` wait (keystroke
delivery and the screenshot are effects/oracles). -/
def send (now now2 : Nat) (screenshot : Option String) (id : Nat)
    (command : String) (st : CCState) : Except CCError SendResult × CCState :=
  match mget id st.sessions with
  | none => (.error (.invalidSession id), st)
  | some session =>
    let duration := now2 - now
    let session1 : Session :=
      { session with
        commandCount := session.commandCount + 1,
        sessionLog := session.sessionLog ++
          [.command now command, .response now2 duration screenshot] }
    (.ok { sessionId := id, command := command, duration_ms := duration,
           screenshot := screenshot, status := "sent" },
     { st with sessions := mset id session1 st.sessions })

/-- Status record returned by `getStatus` in `src/index.js:693`. -/
structure Status where
  sessionId : Nat
  path : String
  uptime_ms : Nat
  commands_sent : Nat
  ready : Bool
  logEntries : Nat
  recordingPath : Option String
  watching : Bool
deriving DecidableEq, Repr

/-- `getStatus(sessionId)` from `src/index.js:693`: `null` for an unknown
session, otherwise a snapshot of the session's fields. -/
def getStatus (now : Nat) (id : Nat) (st : CCState) : Option Status :=
  match mget id st.sessions with
  | none => none
  | some s =>
    some { sessionId := id, path := s.path, uptime_ms := now - s.created_at,
           commands_sent := s.commandCount, ready := s.ready,
           logEntries := s.sessionLog.length,
           recordingPath := s.recording.map (·.videoPath),
           watching := s.watcher.isSome }

/-- `saveSession(sessionId, filepath)` from `src/index.js:711`: throws
`Invalid session` on an unknown ID, otherwise serialises the session to
`filepath` (a pure effect) and returns the path; the state is unchanged. -/
def saveSession (id : Nat) (filepath : String) (st : CCState) :
    Except CCError String × CCState :=
  match mget id st.sessions with
  | none => (.error (.invalidSession id), st)
  | some _ => (.ok filepath, st)

/-- `startRecording(sessionId, options)` from `src/index.js:230`: unknown
session and double-recording are rejected in that order; failing to resolve
the Terminal window bounds (the `boundsOk` oracle) is fatal; otherwise the
recording handle is attached.  The ffmpeg spawn and window resize are
external effects and are elided. -/
def startRecording (now : Nat) (boundsOk : Bool) (id : Nat)
    (outputPath : String) (st : CCState) :
    Except CCError (Nat × String) × CCState :=
  match mget id st.sessions with
  | none => (.error (.invalidSession id), st)
  | some s =>
    if s.recording.isSome then (.error (.alreadyRecording id), st)
    else if !boundsOk then (.error .boundsUnavailable, st)
    else
      let s1 : Session := { s with recording := some ⟨outputPath, now⟩ }
      (.ok (id, outputPath), { st with sessions := mset id s1 st.sessions })

/-- `stopRecording(sessionId)` from `src/index.js:318`: unknown session and
missing recording are rejected; otherwise the handle is cleared and the
video path plus elapsed duration are returned (the graceful-then-forced
ffmpeg shutdown is an external effect). -/
def stopRecording (now : Nat) (id : Nat) (st : CCState) :
    Except CCError (String × Nat) × CCState :=
  match mget id st.sessions with
  | none => (.error (.invalidSession id), st)
  | some s =>
    match s.recording with
    | none => (.error (.noActiveRecording id), st)
    | some r =>
      (.ok (r.videoPath, now - r.startTime),
       { st with sessions := mset id { s with recording := none } st.sessions })

/-- `watchForPrompts(sessionId, options)` from `src/index.js:430`: an
unknown session throws `Invalid session`; a session that already has an
active watcher throws `already has an active watcher` before any mutation;
otherwise the watcher handle is attached and `{sessionId, intervalMs}` is
returned. -/
def watchForPrompts (id : Nat) (intervalMs : Nat) (st : CCState) :
    Except CCError (Nat × Nat) × CCState :=
  match mget id st.sessions with
  | none => (.error (.invalidSession id), st)
  | some s =>
    if s.watcher.isSome then (.error (.watcherActive id), st)
    else
      let s1 : Session := { s with watcher := some ⟨intervalMs⟩ }
      (.ok (id, intervalMs), { st with sessions := mset id s1 st.sessions })

/-- `stopWatching(sessionId)` from `src/index.js:492`: unknown session
throws; a session without a watcher only logs a warning (no error);
otherwise the interval is cleared and the handle dropped. -/
def stopWatching (id : Nat) (st : CCState) : Except CCError Unit × CCState :=
  match mget id st.sessions with
  | none => (.error (.invalidSession id), st)
  | some s =>
    match s.watcher with
    | none => (.ok (), st)
    | some _ =>
      (.ok (), { st with sessions := mset id { s with watcher := none } st.sessions })

/-- `close(sessionId)` from `src/index.js:732`.  An unknown ID returns
immediately (no error, no effect).  Otherwise the watcher and recording are
stopped first, then the graceful-exit keystrokes (`escape`, `/exit`, enter)
are delivered, then the session is deleted from the map.  The `fail` oracle
models an adapter exception thrown during the keystroke phase (e.g. the
unguarded `execSync` inside `focusTerminal`): it propagates after the
watcher/recording handles were already cleared but before the map delete. -/
def close (fail : Nat → Bool) (id : Nat) (st : CCState) :
    Except Unit (List Effect) × CCState :=
  match mget id st.sessions with
  | none => (.ok [], st)
  | some s =>
    let effW : List Effect := if s.watcher.isSome then [.stopWatcherE] else []
    let effR : List Effect :=
      match s.recording with
      | some r => [.stopRecordingE r.videoPath]
      | none => []
    let s1 : Session := { s with watcher := none, recording := none }
    let st1 : CCState := { st with sessions := mset id s1 st.sessions }
    if fail id then (.error (), st1)
    else
      (.ok (effW ++ effR ++ [.focus, .key "escape", .typeTextE "/exit", .enter]),
       { st1 with sessions := mdel id st1.sessions })

/-- The loop body of `closeAll` from `src/index.js:758`: sequentially await
`close(id)` over a key list; an exception from an individual `close`
propagates and aborts the remaining iterations (there is no `try`/`catch`
around the loop body). -/
def closeAllGo (fail : Nat → Bool) : List Nat → CCState → Except Unit Unit × CCState
  | [], st => (.ok (), st)
  | id :: rest, st =>
    match close fail id st with
    | (.error e, st') => (.error e, st')
    | (.ok _, st') => closeAllGo fail rest st'

/-- `closeAll()` from `src/index.js:758`: snapshots
`Array.from(sessions.keys())` and awaits `close` on each; returns no
aggregate result (`undefined`). -/
def closeAll (fail : Nat → Bool) (st : CCState) : Except Unit Unit × CCState :=
  closeAllGo fail (mkeys st.sessions) st

end Index

namespace Index

/-- One public API call of `src/index.js`, with its oracle inputs; used to
quantify over arbitrary interleavings of operations. -/
inductive Op
  | launchOp (now : Nat) (pathExists : Bool) (screenshot : Option String) (path : String)
  | sendOp (now now2 : Nat) (screenshot : Option String) (id : Nat) (cmd : String)
  | closeOp (fails : Bool) (id : Nat)
  | watchOp (id : Nat) (intervalMs : Nat)
  | stopWatchOp (id : Nat)
  | startRecOp (now : Nat) (boundsOk : Bool) (id : Nat) (outputPath : String)
  | stopRecOp (now : Nat) (id : Nat)
  | saveOp (id : Nat) (filepath : String)

/-- State transition of one public API call (the returned value is
discarded; `getStatus` is a pure read and has no transition). -/
def step : Op → CCState → CCState
  | .launchOp now pe ss p, st => (launch now pe ss p st).2
  | .sendOp now now2 ss id cmd, st => (send now now2 ss id cmd st).2
  | .closeOp fl id, st => (close (fun _ => fl) id st).2
  | .watchOp id i, st => (watchForPrompts id i st).2
  | .stopWatchOp id, st => (stopWatching id st).2
  | .startRecOp now b id o, st => (startRecording now b id o st).2
  | .stopRecOp now id, st => (stopRecording now id st).2
  | .saveOp id f, st => (saveSession id f st).2

/-- Run a sequence of public API calls. -/
def run (ops : List Op) (st : CCState) : CCState :=
  ops.foldl (fun s op => step op s) st

end Index

/-- `needle` is a leading segment of `hay` (over character lists, so the
definition evaluates by structural recursion). -/
def leadsWith : List Char → List Char → Bool
  | [], _ => true
  | _ :: _, [] => false
  | a :: as, b :: bs => a == b && leadsWith as bs

/-- `needle` occurs contiguously somewhere in `hay`. -/
def occursIn (needle : List Char) : List Char → Bool
  | [] => leadsWith needle []
  | b :: bs => leadsWith needle (b :: bs) || occursIn needle bs

/-- Case-insensitive substring test: executable model of a case-insensitive
literal regex such as `/\[Y\/n\]/i`. -/
def ciContains (hay needle : String) : Bool :=
  occursIn (needle.data.map Char.toLower) (hay.data.map Char.toLower)

/-- `content.split('\n')` over the character list. -/
def splitOnNewline : List Char → List (List Char)
  | [] => [[]]
  | c :: rest =>
    match splitOnNewline rest with
    | [] => [[]]
    | h :: t => if c = '\n' then [] :: h :: t else (c :: h) :: t

/-- `lines.join('\n')` over character lists. -/
def joinLines : List (List Char) → List Char
  | [] => []
  | [l] => l
  | l :: ls => l ++ '\n' :: joinLines ls

/-- `content.split('\n').slice(-n).join('\n')`: the bounded recent window of
output scanned by the watchers (`src/index.js:453`, `src/watcher.js:112-113`). -/
def lastLines (n : Nat) (content : String) : String :=
  let lines := splitOnNewline content.data
  String.mk (joinLines (lines.drop (lines.length - n)))

namespace V3

/-- `isPromptVisible` from `src/unnamed/part_001:83`: Claude Code shows `❯`
(or a bare `>`) when ready for input (`.includes` of a one-character string
is membership in the character list). -/
def isPromptVisible (ocrText : String) : Bool :=
  ocrText.data.contains '❯' || ocrText.data.contains '>'

/-- Entries of `session.sessionLog` in `src/unnamed/part_001`. -/
inductive LogEntry
  | command (timestamp : Nat) (command : String)
  | response (timestamp : Nat) (output : String) (duration_ms : Nat)
deriving DecidableEq, Repr

/-- The session object built by `launch` in `src/unnamed/part_001`
(the spawned process handle and screenshot caches are external). -/
structure Session where
  id : Nat
  path : String
  created_at : Nat
  commandCount : Nat
  outputBuffer : String
  sessionLog : List LogEntry
  sessionReady : Bool
  authenticated : Bool
deriving DecidableEq, Repr

/-- Module-level state of `src/unnamed/part_001`. -/
structure St where
  sessionCounter : Nat
  sessions : List (Nat × Session)
deriving DecidableEq, Repr

/-- Result object returned by `send` in `src/unnamed/part_001:314`. -/
structure SendResult where
  sessionId : Nat
  command : String
  output : String
  duration_ms : Nat
  status : String
deriving DecidableEq, Repr

/-- Observable external effects of `send` (keystrokes to the target's
stdin). -/
inductive Effect
  | stdinWrite (text : String)
deriving DecidableEq, Repr

/-- The `checkForCompletion` polling loop of `send`
(`src/unnamed/part_001:271-310`), one recursion step per 500 ms tick.
`ocr k` is the screenshot+OCR oracle at tick `k` (`none` = `takeScreenshot`
failed, in which case the tick returns early and neither completion check
runs).  A visible prompt counts only after the 2nd attempt; the timeout
fires once `attempts > maxAttempts`; on timeout an empty OCR text falls back
to `'Command timeout (no response)'`.  The result is
`(promptReappeared, attempts, responseText)`; `none` means the loop is still
running after `fuel` ticks. -/
def sendPollLoop (ocr : Nat → Option String) (maxAttempts : Nat) :
    Nat → Nat → Option (Bool × Nat × String)
  | 0, _ => none
  | fuel + 1, attempts =>
    let a := attempts + 1
    match ocr a with
    | none => sendPollLoop ocr maxAttempts fuel a
    | some ocrText =>
      if isPromptVisible ocrText = true ∧ 2 < a then some (true, a, ocrText)
      else if maxAttempts < a then
        some (false, a,
          if ocrText = "" then "Command timeout (no response)" else ocrText)
      else sendPollLoop ocr maxAttempts fuel a

/-- `send(sessionId, command, timeoutSeconds)` from
`src/unnamed/part_001:240`.  An unknown session throws `Invalid session`, a
session with `sessionReady` unset throws `Session not ready`; both before
any mutation, log append, or stdin write.  Otherwise `commandCount++`, the
`command` log entry and the stdin write happen, then the polling loop runs
with `maxAttempts = timeoutSeconds * 2`; elapsed time is `attempts * 500` ms
(tick spacing; capture/OCR latency elided).  `none` models the loop still
polling after `fuel` ticks; the command-phase mutations are only observable
through the returned state, so they materialise on completion. -/
def send (ocr : Nat → Option String) (fuel : Nat) (now : Nat) (id : Nat)
    (command : String) (timeoutSeconds : Nat) (st : St) :
    Option (Except CCError SendResult × St × List Effect) :=
  match mget id st.sessions with
  | none => some (.error (.invalidSession id), st, [])
  | some session =>
    if session.sessionReady = false then
      some (.error (.sessionNotReady id), st, [])
    else
      match sendPollLoop ocr (timeoutSeconds * 2) fuel 0 with
      | none => none
      | some (promptReappeared, attempts, responseText) =>
        let duration := attempts * 500
        let session1 : Session :=
          { session with
            commandCount := session.commandCount + 1,
            sessionLog := session.sessionLog ++
              [.command now command,
               .response (now + duration) responseText duration] }
        some (.ok { sessionId := id, command := command,
                    output := responseText, duration_ms := duration,
                    status := if promptReappeared then "success" else "incomplete" },
              { st with sessions := mset id session1 st.sessions },
              [.stdinWrite (command ++ "\n")])

end V3

namespace WatcherJS

/-- One pattern of `PROMPT_PATTERNS` / `ERROR_PATTERNS` /
`COMPLETION_PATTERNS` in `src/watcher.js`: the regex is abstracted as a
Boolean test. -/
structure MPattern where
  test : String → Bool
  label : String

/-- `src/watcher.js:101` — don't spam events: 30 s cooldown. -/
def EVENT_COOLDOWN : Nat := 30000

/-- `src/watcher.js:102` — 5 s between auto-approvals. -/
def PROMPT_COOLDOWN : Nat := 5000

/-- First pattern in declaration order whose test matches (the `for`
loops of `src/watcher.js:117-153`). -/
def findMatch : List MPattern → String → Option MPattern
  | [], _ => none
  | p :: ps, recent => if p.test recent then some p else findMatch ps recent

/-- The module-level mutable variables of the main loop
(`src/watcher.js:98-100`). -/
structure WState where
  lastContent : String
  lastEventTime : Nat
  lastPromptTime : Nat
deriving DecidableEq, Repr

/-- Observable actions of one tick: a Shift+Tab auto-approval
(`approvePrompt`) or an `openclaw` notification (`sendEvent`). -/
inductive WAction
  | approve
  | eventW (label : String)
deriving DecidableEq, Repr

/-- One `setInterval` tick of the main loop (`src/watcher.js:107-156`).
Unchanged or empty content returns early.  Otherwise the last 15 lines are
scanned: a matching prompt pattern auto-approves when `AUTO_APPROVE` is set
and `now - lastPromptTime > PROMPT_COOLDOWN`, else notifies when
`AUTO_APPROVE` is unset and the event cooldown elapsed, else does nothing —
in every prompt case `lastContent` is updated and the tick returns.  Error
then completion patterns fire only when the shared event cooldown elapsed
(the error line extracted into the message text is elided; the action
carries the label). -/
def tick (autoApprove : Bool) (prompts errors completions : List MPattern)
    (s : WState) (now : Nat) (content : String) : WState × List WAction :=
  if content = "" ∨ content = s.lastContent then (s, [])
  else
    let recent := lastLines 15 content
    match findMatch prompts recent with
    | some _ =>
      if autoApprove = true ∧ PROMPT_COOLDOWN < now - s.lastPromptTime then
        ({ s with lastPromptTime := now, lastContent := content }, [.approve])
      else if autoApprove = false ∧ EVENT_COOLDOWN < now - s.lastEventTime then
        ({ s with lastEventTime := now, lastContent := content },
         [.eventW "prompt"])
      else ({ s with lastContent := content }, [])
    | none =>
      if EVENT_COOLDOWN < now - s.lastEventTime then
        match findMatch errors recent with
        | some p =>
          ({ s with lastEventTime := now, lastContent := content },
           [.eventW p.label])
        | none =>
          match findMatch completions recent with
          | some p =>
            ({ s with lastEventTime := now, lastContent := content },
             [.eventW p.label])
          | none => ({ s with lastContent := content }, [])
      else ({ s with lastContent := content }, [])

/-- Model of the `PROMPT_PATTERNS` entry
`{ pattern: /\[Y\/n\]/i, label: 'yn-prompt' }` (`src/watcher.js:31`). -/
def ynPattern : MPattern :=
  { test := fun s => ciContains s "[y/n]", label := "yn-prompt" }

end WatcherJS

namespace Index

/-- One entry of `PROMPT_PATTERNS` (or a caller-supplied extra pattern) in
`src/index.js:413-420`: the regex is abstracted as a Boolean test. -/
structure PatternEntry where
  test : String → Bool
  response : String
  label : String

/-- First matching pattern in order (the `for` loop of
`src/index.js:455-477`, which breaks after the first match). -/
def watchFindPrompt : List PatternEntry → String → Option PatternEntry
  | [], _ => none
  | p :: ps, recent => if p.test recent then some p else watchFindPrompt ps recent

/-- The closure state of one `watchForPrompts` interval
(`src/index.js:442`): only `lastSeenContent`.  There is no cooldown
timestamp. -/
structure WatchState where
  lastSeenContent : String
deriving DecidableEq, Repr

/-- One `setInterval` tick of the per-session prompt watcher
(`src/index.js:446-482`).  Empty or unchanged content returns early;
otherwise `lastSeenContent` is updated, the last 10 lines are scanned, and
the first matching pattern's response is delivered (focus + keystrokes,
returned here as a `(label, response)` pair). -/
def watchTick (allPatterns : List PatternEntry) (ws : WatchState)
    (content : String) : WatchState × List (String × String) :=
  if content = "" ∨ content = ws.lastSeenContent then (ws, [])
  else
    let recent := lastLines 10 content
    match watchFindPrompt allPatterns recent with
    | some p => (⟨content⟩, [(p.label, p.response)])
    | none => (⟨content⟩, [])

/-- Model of the `PROMPT_PATTERNS` entry
`{ pattern: /\[Y\/n\]/i, response: 'y', label: 'Y/n prompt' }`
(`src/index.js:415`). -/
def ynPromptPattern : PatternEntry :=
  { test := fun s => ciContains s "[y/n]", response := "y", label := "Y/n prompt" }

end Index

/-! ### Library lemmas about the session-map operations -/

namespace CCMap

theorem mget_mset_self {α : Type} (id : Nat) (v : α) (m : List (Nat × α)) :
    mget id (mset id v m) = some v := by
  induction m with
  | nil => simp [mget, mset]
  | cons p rest ih =>
    obtain ⟨k, w⟩ := p
    by_cases h : k = id <;> simp [mget, mset, h, ih]

theorem mget_mset_ne {α : Type} {j id : Nat} (h : j ≠ id) (v : α) (m : List (Nat × α)) :
    mget j (mset id v m) = mget j m := by
  induction m with
  | nil => simp [mget, mset, Ne.symm h]
  | cons p rest ih =>
    obtain ⟨k, w⟩ := p
    by_cases hk : k = id
    · subst hk
      simp [mget, mset, Ne.symm h]
    · simp only [mset, if_neg hk]
      by_cases hj : k = j
      · simp [mget, hj]
      · simp [mget, hj, ih]

theorem mget_mdel_self {α : Type} (id : Nat) (m : List (Nat × α)) :
    mget id (mdel id m) = none := by
  induction m with
  | nil => simp [mget, mdel]
  | cons p rest ih =>
    obtain ⟨k, w⟩ := p
    by_cases h : k = id
    · simpa [mdel, h] using ih
    · simpa [mdel, mget, h] using ih

theorem mget_mdel_ne {α : Type} {j id : Nat} (h : j ≠ id) (m : List (Nat × α)) :
    mget j (mdel id m) = mget j m := by
  induction m with
  | nil => simp [mget, mdel]
  | cons p rest ih =>
    obtain ⟨k, w⟩ := p
    by_cases hk : k = id
    · subst hk
      simp [mdel, mget, Ne.symm h, ih]
    · simp only [mdel, if_neg hk]
      by_cases hj : k = j
      · simp [mget, hj]
      · simp [mget, hj, ih]

theorem mdel_mset_self {α : Type} (id : Nat) (v : α) (m : List (Nat × α)) :
    mdel id (mset id v m) = mdel id m := by
  induction m with
  | nil => simp [mdel, mset]
  | cons p rest ih =>
    obtain ⟨k, w⟩ := p
    by_cases h : k = id <;> simp [mdel, mset, h, ih]

theorem mdel_of_mget_none {α : Type} {id : Nat} {m : List (Nat × α)}
    (h : mget id m = none) : mdel id m = m := by
  induction m with
  | nil => simp [mdel]
  | cons p rest ih =>
    obtain ⟨k, w⟩ := p
    by_cases hk : k = id
    · simp [mget, hk] at h
    · simp [mget, hk] at h
      simp [mdel, hk, ih h]

end CCMap

namespace Index

theorem step_counter_mono (op : Op) (st : CCState) :
    st.sessionCounter ≤ (step op st).sessionCounter := by
  cases op with
  | launchOp now pe ss p =>
    simp only [step, launch]
    cases pe <;> simp
  | sendOp now now2 ss id cmd =>
    simp only [step, send]
    cases mget id st.sessions <;> simp
  | closeOp fl id =>
    simp only [step, close]
    cases mget id st.sessions with
    | none => simp
    | some s => cases fl <;> simp
  | watchOp id i =>
    simp only [step, watchForPrompts]
    cases mget id st.sessions with
    | none => simp
    | some s => cases hw : s.watcher.isSome <;> simp [hw]
  | stopWatchOp id =>
    simp only [step, stopWatching]
    cases mget id st.sessions with
    | none => simp
    | some s => cases hw : s.watcher <;> simp [hw]
  | startRecOp now b id o =>
    simp only [step, startRecording]
    cases mget id st.sessions with
    | none => simp
    | some s =>
      cases hr : s.recording.isSome
      · cases b <;> simp [hr]
      · simp [hr]
  | stopRecOp now id =>
    simp only [step, stopRecording]
    cases mget id st.sessions with
    | none => simp
    | some s => cases hr : s.recording <;> simp [hr]
  | saveOp id f =>
    simp only [step, saveSession]
    cases mget id st.sessions <;> simp

theorem run_counter_mono (ops : List Op) (st : CCState) :
    st.sessionCounter ≤ (run ops st).sessionCounter := by
  induction ops generalizing st with
  | nil => exact Nat.le_refl _
  | cons op rest ih =>
    exact Nat.le_trans (step_counter_mono op st) (ih (step op st))

end Index

/-! ### Claim theorems -/

/-- C1: for every session, a `send` call that is not rejected for an unknown
session increments that session's `commandCount` by exactly one and leaves
every other session's counter unchanged; a `send` rejected because the
session ID is unknown (`Invalid session`, the SessionNotFound case) returns
an error and leaves the whole state — hence every session's counter —
unchanged (`src/index.js:566-571`). -/
theorem c1_send_commandCount (now now2 : Nat) (screenshot : Option String)
    (id : Nat) (command : String) (st : Index.CCState) :
    (∀ s, mget id st.sessions = some s →
      (∃ s', mget id (Index.send now now2 screenshot id command st).2.sessions = some s'
          ∧ s'.commandCount = s.commandCount + 1)
      ∧ ∀ j, j ≠ id →
          mget j (Index.send now now2 screenshot id command st).2.sessions
            = mget j st.sessions)
    ∧ (mget id st.sessions = none →
        Index.send now now2 screenshot id command st
          = (.error (.invalidSession id), st)) := by
  constructor
  · intro s hs
    constructor
    · exact ⟨{ s with
                commandCount := s.commandCount + 1
                sessionLog := s.sessionLog ++
                  [.command now command, .response now2 (now2 - now) screenshot] },
             by simp [Index.send, hs, mget_mset_self], rfl⟩
    · intro j hj
      simp [Index.send, hs, mget_mset_ne hj]
  · intro h
    simp [Index.send, h]

/-- Witness for C1: a concrete one-session state for the success branch and
the empty registry for the rejection branch. -/
theorem c1_send_commandCount_witness :
    ((∃ s', mget 1 (Index.send 10 20 none 1 "ls"
          ⟨1, [(1, ⟨1, "/p", 0, 0, [], true, none, none⟩)]⟩).2.sessions = some s'
        ∧ s'.commandCount = 0 + 1)
      ∧ ∀ j, j ≠ 1 →
          mget j (Index.send 10 20 none 1 "ls"
              ⟨1, [(1, ⟨1, "/p", 0, 0, [], true, none, none⟩)]⟩).2.sessions
            = mget j (⟨1, [(1, ⟨1, "/p", 0, 0, [], true, none, none⟩)]⟩ : Index.CCState).sessions)
    ∧ Index.send 10 20 none 1 "ls" ⟨0, []⟩
        = (.error (.invalidSession 1), (⟨0, []⟩ : Index.CCState)) :=
  ⟨(c1_send_commandCount 10 20 none 1 "ls"
      ⟨1, [(1, ⟨1, "/p", 0, 0, [], true, none, none⟩)]⟩).1
      ⟨1, "/p", 0, 0, [], true, none, none⟩ (by decide),
   (c1_send_commandCount 10 20 none 1 "ls" ⟨0, []⟩).2 (by decide)⟩

/-- C3: `close` is idempotent.  After one `close(id)` a second `close(id)`
is a no-op — it returns without error, changes no state, and emits no
effects — and `close` on an ID that is absent from the registry (never
created or already closed) is likewise a no-op that raises no error
(`src/index.js:732-753`). -/
theorem c3_close_idempotent (id : Nat) (st : Index.CCState) :
    Index.close (fun _ => false) id (Index.close (fun _ => false) id st).2
      = (.ok [], (Index.close (fun _ => false) id st).2)
    ∧ (mget id st.sessions = none →
        Index.close (fun _ => false) id st = (.ok [], st)) := by
  constructor
  · cases hs : mget id st.sessions with
    | none => simp [Index.close, hs]
    | some s => simp [Index.close, hs, mget_mdel_self]
  · intro h
    simp [Index.close, h]

/-- Witness for C3: double `close` on a concrete one-session registry, and
`close` of an unknown ID on a concrete empty registry. -/
theorem c3_close_idempotent_witness :
    (Index.close (fun _ => false) 1 (Index.close (fun _ => false) 1
        ⟨1, [(1, ⟨1, "/p", 0, 0, [], true, none, none⟩)]⟩).2
      = (.ok [], (Index.close (fun _ => false) 1
        ⟨1, [(1, ⟨1, "/p", 0, 0, [], true, none, none⟩)]⟩).2))
    ∧ Index.close (fun _ => false) 2 ⟨5, []⟩ = (.ok [], (⟨5, []⟩ : Index.CCState)) :=
  ⟨(c3_close_idempotent 1 ⟨1, [(1, ⟨1, "/p", 0, 0, [], true, none, none⟩)]⟩).1,
   (c3_close_idempotent 2 ⟨5, []⟩).2 (by decide)⟩

/-- C7: starting a second prompt watcher on a session that already has an
active one fails with `already has an active watcher`, the state is
untouched, and the first watcher is still attached afterwards
(`src/index.js:430-433`). -/
theorem c7_second_watcher_fails (id intervalMs : Nat) (st : Index.CCState)
    (s : Index.Session) (w : Index.Watcher)
    (hs : mget id st.sessions = some s) (hw : s.watcher = some w) :
    Index.watchForPrompts id intervalMs st = (.error (.watcherActive id), st)
    ∧ ∃ s', mget id (Index.watchForPrompts id intervalMs st).2.sessions = some s'
        ∧ s'.watcher = some w := by
  have h1 : Index.watchForPrompts id intervalMs st = (.error (.watcherActive id), st) := by
    simp [Index.watchForPrompts, hs, hw]
  exact ⟨h1, s, by rw [h1]; exact hs, hw⟩

/-- Witness for C7: a concrete session with an attached 2000 ms watcher. -/
theorem c7_second_watcher_fails_witness :
    Index.watchForPrompts 1 3000 ⟨1, [(1, ⟨1, "/p", 0, 0, [], true, none, some ⟨2000⟩⟩)]⟩
      = (.error (.watcherActive 1),
         (⟨1, [(1, ⟨1, "/p", 0, 0, [], true, none, some ⟨2000⟩⟩)]⟩ : Index.CCState))
    ∧ ∃ s', mget 1 (Index.watchForPrompts 1 3000
        ⟨1, [(1, ⟨1, "/p", 0, 0, [], true, none, some ⟨2000⟩⟩)]⟩).2.sessions = some s'
        ∧ s'.watcher = some ⟨2000⟩ :=
  c7_second_watcher_fails 1 3000 _ ⟨1, "/p", 0, 0, [], true, none, some ⟨2000⟩⟩ ⟨2000⟩
    (by decide) rfl

/-- C9: for an ID absent from the registry, `getStatus` returns `null`
rather than throwing, while `send`, `saveSession`, `startRecording`,
`stopRecording` and `watchForPrompts` all throw the `Invalid session` error
for that same ID (`src/index.js:693-706, 566-568, 711-713, 230-232,
318-320, 430-432`). -/
theorem c9_unknown_session (id now now2 nowR : Nat) (screenshot : Option String)
    (command filepath outputPath : String) (boundsOk : Bool) (intervalMs : Nat)
    (st : Index.CCState) (h : mget id st.sessions = none) :
    Index.getStatus now id st = none
    ∧ (Index.send now now2 screenshot id command st).1 = .error (.invalidSession id)
    ∧ (Index.saveSession id filepath st).1 = .error (.invalidSession id)
    ∧ (Index.startRecording nowR boundsOk id outputPath st).1 = .error (.invalidSession id)
    ∧ (Index.stopRecording nowR id st).1 = .error (.invalidSession id)
    ∧ (Index.watchForPrompts id intervalMs st).1 = .error (.invalidSession id) := by
  refine ⟨?_, ?_, ?_, ?_, ?_, ?_⟩ <;>
    simp [Index.getStatus, Index.send, Index.saveSession, Index.startRecording,
          Index.stopRecording, Index.watchForPrompts, h]

/-- Witness for C9: ID 7 against a concrete registry holding only session 1. -/
theorem c9_unknown_session_witness :
    Index.getStatus 50 7 ⟨1, [(1, ⟨1, "/p", 0, 0, [], true, none, none⟩)]⟩ = none
    ∧ (Index.send 50 60 none 7 "ls"
        ⟨1, [(1, ⟨1, "/p", 0, 0, [], true, none, none⟩)]⟩).1 = .error (.invalidSession 7)
    ∧ (Index.saveSession 7 "/tmp/out.json"
        ⟨1, [(1, ⟨1, "/p", 0, 0, [], true, none, none⟩)]⟩).1 = .error (.invalidSession 7)
    ∧ (Index.startRecording 50 true 7 "/tmp/v.mp4"
        ⟨1, [(1, ⟨1, "/p", 0, 0, [], true, none, none⟩)]⟩).1 = .error (.invalidSession 7)
    ∧ (Index.stopRecording 50 7
        ⟨1, [(1, ⟨1, "/p", 0, 0, [], true, none, none⟩)]⟩).1 = .error (.invalidSession 7)
    ∧ (Index.watchForPrompts 7 2000
        ⟨1, [(1, ⟨1, "/p", 0, 0, [], true, none, none⟩)]⟩).1 = .error (.invalidSession 7) :=
  c9_unknown_session 7 50 60 50 none "ls" "/tmp/out.json" "/tmp/v.mp4" true 2000
    ⟨1, [(1, ⟨1, "/p", 0, 0, [], true, none, none⟩)]⟩ (by decide)

/-- C10: every `launch` call consumes a fresh session ID before the
working-directory path is validated: the counter advances by one whether or
not the path exists, a failing launch reports `PathNotFound` after having
consumed the ID, a succeeding launch returns exactly the consumed ID, and
any later launch — after arbitrary further API calls — that succeeds
returns a strictly larger ID (so successful IDs are strictly increasing but
not necessarily contiguous) (`src/index.js:510-516`). -/
theorem c10_launch_consumes_id (now : Nat) (pathExists : Bool)
    (screenshot : Option String) (projectPath : String) (st : Index.CCState) :
    (Index.launch now pathExists screenshot projectPath st).2.sessionCounter
      = st.sessionCounter + 1
    ∧ (pathExists = false →
        (Index.launch now pathExists screenshot projectPath st).1
          = .error (.pathNotFound projectPath))
    ∧ (pathExists = true →
        (Index.launch now pathExists screenshot projectPath st).1
          = .ok (st.sessionCounter + 1))
    ∧ (∀ (ops : List Index.Op) (n2 : Nat) (pe2 : Bool) (ss2 : Option String)
          (p2 : String) (m : Nat),
        (Index.launch n2 pe2 ss2 p2
            (Index.run ops (Index.launch now pathExists screenshot projectPath st).2)).1
          = .ok m → st.sessionCounter + 1 < m) := by
  refine ⟨?_, ?_, ?_, ?_⟩
  · cases pathExists <;> simp [Index.launch]
  · intro h
    subst h
    simp [Index.launch]
  · intro h
    subst h
    simp [Index.launch]
  · intro ops n2 pe2 ss2 p2 m hm
    have h1 : (Index.launch now pathExists screenshot projectPath st).2.sessionCounter
        = st.sessionCounter + 1 := by
      cases pathExists <;> simp [Index.launch]
    have h2 := Index.run_counter_mono ops
      (Index.launch now pathExists screenshot projectPath st).2
    rw [h1] at h2
    set st2 := Index.run ops (Index.launch now pathExists screenshot projectPath st).2
      with hst2
    cases pe2 with
    | false => simp [Index.launch] at hm
    | true =>
      simp [Index.launch] at hm
      omega

/-- Witness for C10: a failing then a succeeding launch from a concrete
state, with the later-launch bound applied across an intervening failed
launch. -/
theorem c10_launch_consumes_id_witness :
    ((Index.launch 5 false none "/missing" ⟨3, []⟩).2.sessionCounter = 3 + 1
      ∧ (Index.launch 5 false none "/missing" ⟨3, []⟩).1
          = .error (.pathNotFound "/missing"))
    ∧ (Index.launch 5 true none "/ok" ⟨3, []⟩).1 = .ok (3 + 1)
    ∧ ((Index.launch 9 true none "/ok2"
          (Index.run [Index.Op.launchOp 7 false none "/missing2"]
            (Index.launch 5 false none "/missing" ⟨3, []⟩).2)).1 = .ok 6
        → 3 + 1 < 6) :=
  ⟨⟨(c10_launch_consumes_id 5 false none "/missing" ⟨3, []⟩).1,
    (c10_launch_consumes_id 5 false none "/missing" ⟨3, []⟩).2.1 rfl⟩,
   (c10_launch_consumes_id 5 true none "/ok" ⟨3, []⟩).2.2.1 rfl,
   (c10_launch_consumes_id 5 false none "/missing" ⟨3, []⟩).2.2.2
     [Index.Op.launchOp 7 false none "/missing2"] 9 true none "/ok2" 6⟩

/-- C4: after `close(sessionId)` completes, `getStatus(sessionId)` returns
`null`; and since the counter never decreases under any later API call, no
subsequent `launch` ever returns that ID again (IDs are never reused).  The
hypothesis `id ≤ sessionCounter` holds for every ID the engine has issued:
the third conjunct shows each launched ID is bounded by the counter it
leaves behind (`src/index.js:693-695, 510-511, 751`). -/
theorem c4_close_no_reuse (st : Index.CCState) (id now : Nat)
    (hid : id ≤ st.sessionCounter) :
    Index.getStatus now id (Index.close (fun _ => false) id st).2 = none
    ∧ (∀ (ops : List Index.Op) (n2 : Nat) (pe2 : Bool) (ss2 : Option String)
          (p2 : String) (m : Nat),
        (Index.launch n2 pe2 ss2 p2
            (Index.run ops (Index.close (fun _ => false) id st).2)).1 = .ok m
          → m ≠ id)
    ∧ (∀ (st0 : Index.CCState) (n3 : Nat) (pe3 : Bool) (ss3 : Option String)
          (p3 : String) (m : Nat),
        (Index.launch n3 pe3 ss3 p3 st0).1 = .ok m
          → m ≤ (Index.launch n3 pe3 ss3 p3 st0).2.sessionCounter) := by
  refine ⟨?_, ?_, ?_⟩
  · cases hs : mget id st.sessions with
    | none => simp [Index.close, hs, Index.getStatus]
    | some s => simp [Index.close, hs, Index.getStatus, mget_mdel_self]
  · intro ops n2 pe2 ss2 p2 m hm
    have h1 : (Index.close (fun _ => false) id st).2.sessionCounter
        = st.sessionCounter := by
      cases hs : mget id st.sessions <;> simp [Index.close, hs]
    have h2 := Index.run_counter_mono ops (Index.close (fun _ => false) id st).2
    rw [h1] at h2
    cases pe2 with
    | false => simp [Index.launch] at hm
    | true =>
      simp [Index.launch] at hm
      omega
  · intro st0 n3 pe3 ss3 p3 m hm
    cases pe3 with
    | false => simp [Index.launch] at hm
    | true =>
      simp [Index.launch] at hm ⊢
      omega

/-- Witness for C4: closing session 1 in a concrete two-session registry,
then launching after an intervening send. -/
theorem c4_close_no_reuse_witness :
    Index.getStatus 99 1 (Index.close (fun _ => false) 1
        ⟨2, [(1, ⟨1, "/a", 0, 0, [], true, none, none⟩),
             (2, ⟨2, "/b", 0, 0, [], true, none, none⟩)]⟩).2 = none
    ∧ ((Index.launch 9 true none "/c"
          (Index.run [Index.Op.sendOp 5 6 none 2 "ls"]
            (Index.close (fun _ => false) 1
              ⟨2, [(1, ⟨1, "/a", 0, 0, [], true, none, none⟩),
                   (2, ⟨2, "/b", 0, 0, [], true, none, none⟩)]⟩).2)).1 = .ok 3
        → (3 : Nat) ≠ 1)
    ∧ ((Index.launch 4 true none "/d" ⟨0, []⟩).1 = .ok 1
        → (1 : Nat) ≤ (Index.launch 4 true none "/d" ⟨0, []⟩).2.sessionCounter) :=
  ⟨(c4_close_no_reuse ⟨2, [(1, ⟨1, "/a", 0, 0, [], true, none, none⟩),
        (2, ⟨2, "/b", 0, 0, [], true, none, none⟩)]⟩ 1 99 (by decide)).1,
   (c4_close_no_reuse ⟨2, [(1, ⟨1, "/a", 0, 0, [], true, none, none⟩),
        (2, ⟨2, "/b", 0, 0, [], true, none, none⟩)]⟩ 1 99 (by decide)).2.1
     [Index.Op.sendOp 5 6 none 2 "ls"] 9 true none "/c" 3,
   (c4_close_no_reuse ⟨2, [(1, ⟨1, "/a", 0, 0, [], true, none, none⟩),
        (2, ⟨2, "/b", 0, 0, [], true, none, none⟩)]⟩ 1 99 (by decide)).2.2
     ⟨0, []⟩ 4 true none "/d" 1⟩

/-- C5: `send` in the vision engine fails with `Invalid session`
(SessionNotFound) for an unknown ID and with `Session not ready`
(SessionNotReady) for a session whose `sessionReady` flag is unset, and in
both failure cases nothing is mutated: the state is returned unchanged (so
no counter increments and no log entry is appended) and the effect trace is
empty (no stdin write is delivered) (`src/unnamed/part_001:240-252`). -/
theorem c5_send_failures_no_mutation (ocr : Nat → Option String)
    (fuel now id : Nat) (command : String) (timeoutSeconds : Nat) (st : V3.St) :
    (mget id st.sessions = none →
      V3.send ocr fuel now id command timeoutSeconds st
        = some (.error (.invalidSession id), st, []))
    ∧ (∀ s, mget id st.sessions = some s → s.sessionReady = false →
        V3.send ocr fuel now id command timeoutSeconds st
          = some (.error (.sessionNotReady id), st, [])) := by
  constructor
  · intro h
    simp [V3.send, h]
  · intro s hs hr
    simp [V3.send, hs, hr]

/-- Witness for C5: ID 9 against a concrete registry, and a concrete
not-yet-ready session 1. -/
theorem c5_send_failures_no_mutation_witness :
    V3.send (fun _ => some "") 4 0 9 "ls" 1 ⟨1, [(1, ⟨1, "/p", 0, 0, "", [], false, false⟩)]⟩
      = some (.error (.invalidSession 9),
              (⟨1, [(1, ⟨1, "/p", 0, 0, "", [], false, false⟩)]⟩ : V3.St), [])
    ∧ V3.send (fun _ => some "") 4 0 1 "ls" 1
        ⟨1, [(1, ⟨1, "/p", 0, 0, "", [], false, false⟩)]⟩
      = some (.error (.sessionNotReady 1),
              (⟨1, [(1, ⟨1, "/p", 0, 0, "", [], false, false⟩)]⟩ : V3.St), []) :=
  ⟨(c5_send_failures_no_mutation (fun _ => some "") 4 0 9 "ls" 1
      ⟨1, [(1, ⟨1, "/p", 0, 0, "", [], false, false⟩)]⟩).1 (by decide),
   (c5_send_failures_no_mutation (fun _ => some "") 4 0 1 "ls" 1
      ⟨1, [(1, ⟨1, "/p", 0, 0, "", [], false, false⟩)]⟩).2
     ⟨1, "/p", 0, 0, "", [], false, false⟩ (by decide) rfl⟩

namespace V3

/-- Helper: when every screenshot succeeds and no OCR text ever shows the
idle prompt, the polling loop runs to `maxAttempts + 1` ticks and reports
the timeout (`promptReappeared = false`). -/
theorem sendPollLoop_timeout (ocr : Nat → Option String) (maxAttempts : Nat)
    (hocr : ∀ k, ∃ t, ocr k = some t ∧ isPromptVisible t = false) :
    ∀ fuel attempts, attempts ≤ maxAttempts → maxAttempts + 1 ≤ attempts + fuel →
      ∃ t, ocr (maxAttempts + 1) = some t ∧
        sendPollLoop ocr maxAttempts fuel attempts
          = some (false, maxAttempts + 1,
              if t = "" then "Command timeout (no response)" else t) := by
  intro fuel
  induction fuel with
  | zero => intro attempts h1 h2; omega
  | succ f ih =>
    intro attempts h1 h2
    obtain ⟨t, ht, hv⟩ := hocr (attempts + 1)
    by_cases hlast : attempts = maxAttempts
    · subst hlast
      exact ⟨t, ht, by simp [sendPollLoop, ht, hv]⟩
    · have h3 : attempts + 1 ≤ maxAttempts := by omega
      obtain ⟨t', ht', hloop⟩ := ih (attempts + 1) h3 (by omega)
      refine ⟨t', ht', ?_⟩
      rw [show sendPollLoop ocr maxAttempts (f + 1) attempts
            = sendPollLoop ocr maxAttempts f (attempts + 1) from ?_, hloop]
      simp [sendPollLoop, ht, hv]
      omega

end V3

/-- C2 (amended): with a ready session, captures that always succeed, and a
snapshot sequence that never matches the idle prompt, `send` with a timeout
of `n` seconds terminates — given fuel for `2n + 1` ticks — returning a
result whose status is `'incomplete'` (the code's timeout status; the
spec's `'timeout'` label does not occur) after exactly `2n + 1` polling
ticks of 500 ms, i.e. at or after `n` seconds and within `n` seconds plus
one polling interval (`src/unnamed/part_001:271-320`). -/
theorem c2_send_timeout_bound (ocr : Nat → Option String) (fuel now id : Nat)
    (command : String) (n : Nat) (st : V3.St) (s : V3.Session)
    (hs : mget id st.sessions = some s) (hr : s.sessionReady = true)
    (hocr : ∀ k, ∃ t, ocr k = some t ∧ V3.isPromptVisible t = false)
    (hfuel : 2 * n + 1 ≤ fuel) :
    ∃ (r : V3.SendResult) (st' : V3.St),
      V3.send ocr fuel now id command n st
          = some (.ok r, st', [.stdinWrite (command ++ "\n")])
        ∧ r.status = "incomplete"
        ∧ r.duration_ms = (2 * n + 1) * 500
        ∧ n * 1000 ≤ r.duration_ms
        ∧ r.duration_ms ≤ n * 1000 + 500 := by
  obtain ⟨t, ht, hloop⟩ := V3.sendPollLoop_timeout ocr (n * 2) hocr fuel 0
    (by omega) (by omega)
  have hmax : n * 2 + 1 = 2 * n + 1 := by ring
  have hb1 : n * 1000 ≤ (2 * n + 1) * 500 := by omega
  have hb2 : (2 * n + 1) * 500 ≤ n * 1000 + 500 := by omega
  simp only [V3.send, hs, hr, hloop, hmax]
  exact ⟨_, _, rfl, rfl, rfl, hb1, hb2⟩

/-- Witness for C2 (amended): a concrete never-matching snapshot stream
(`'working'` contains neither `❯` nor `>`), timeout 1 s, fuel 5. -/
theorem c2_send_timeout_bound_witness :
    ∃ (r : V3.SendResult) (st' : V3.St),
      V3.send (fun _ => some "working") 5 0 1 "ls" 1
          ⟨1, [(1, ⟨1, "/p", 0, 0, "", [], true, false⟩)]⟩
          = some (.ok r, st', [.stdinWrite ("ls" ++ "\n")])
        ∧ r.status = "incomplete"
        ∧ r.duration_ms = (2 * 1 + 1) * 500
        ∧ 1 * 1000 ≤ r.duration_ms
        ∧ r.duration_ms ≤ 1 * 1000 + 500 :=
  c2_send_timeout_bound (fun _ => some "working") 5 0 1 "ls" 1
    ⟨1, [(1, ⟨1, "/p", 0, 0, "", [], true, false⟩)]⟩
    ⟨1, "/p", 0, 0, "", [], true, false⟩ (by decide) rfl
    (fun _ => ⟨"working", rfl, by decide⟩) (by decide)

/-- Counterexample for C2 as stated: on a snapshot stream that never shows
the idle prompt, `send` with `timeoutSeconds = 1` returns the result status
`'incomplete'`, not `'timeout'` — no code path of `send` produces a
`'timeout'` status (`src/unnamed/part_001:319`). -/
theorem c2_send_timeout_status_counterexample :
    V3.send (fun _ => some "working") 5 0 1 "ls" 1
        ⟨1, [(1, ⟨1, "/p", 0, 0, "", [], true, false⟩)]⟩
      = some (.ok ⟨1, "ls", "working", 1500, "incomplete"⟩,
              ⟨1, [(1, ⟨1, "/p", 0, 1, "",
                [V3.LogEntry.command 0 "ls", V3.LogEntry.response 1500 "working" 1500],
                true, false⟩)]⟩,
              [.stdinWrite "ls\n"])
    ∧ "incomplete" ≠ "timeout" := by
  constructor
  · rfl
  · decide

/-- Counterexample for C6 as stated: the per-session prompt watcher of
`src/index.js` has no cooldown.  Two consecutive ticks whose (changed)
content both matches the `[Y/n]` blocking-prompt pattern — e.g. 2000 ms
apart, well inside any cooldown window — each deliver an auto-response: two
input deliveries, not one (`src/index.js:446-478`). -/
theorem c6_watchTick_no_cooldown_counterexample :
    (Index.watchTick [Index.ynPromptPattern] ⟨""⟩ "Proceed? [Y/n]").2
      = [("Y/n prompt", "y")]
    ∧ (Index.watchTick [Index.ynPromptPattern]
        (Index.watchTick [Index.ynPromptPattern] ⟨""⟩ "Proceed? [Y/n]").1
        "Proceed? [Y/n] ").2 = [("Y/n prompt", "y")] := by
  constructor
  · rfl
  · rfl

/-- C6 (amended): the cooldown behaviour lives in the standalone watcher
`src/watcher.js` in auto-approve mode: a first tick that detects a
blocking-prompt pattern (with the cooldown elapsed) auto-approves once; a
second tick on changed content that detects a prompt again within
`PROMPT_COOLDOWN` (5000 ms) of the first is suppressed — exactly one
auto-response across the two detections (`src/watcher.js:98-130`). -/
theorem c6_watcher_prompt_cooldown (prompts errors completions : List WatcherJS.MPattern)
    (s : WatcherJS.WState) (t1 t2 : Nat) (c1 c2 : String)
    (h1 : c1 ≠ "") (h2 : c1 ≠ s.lastContent)
    (hm1 : WatcherJS.findMatch prompts (lastLines 15 c1) ≠ none)
    (hcool : WatcherJS.PROMPT_COOLDOWN < t1 - s.lastPromptTime)
    (h3 : c2 ≠ "") (h4 : c2 ≠ c1)
    (hm2 : WatcherJS.findMatch prompts (lastLines 15 c2) ≠ none)
    (hwin : t2 - t1 ≤ WatcherJS.PROMPT_COOLDOWN) :
    (WatcherJS.tick true prompts errors completions s t1 c1).2 = [.approve]
    ∧ (WatcherJS.tick true prompts errors completions
        (WatcherJS.tick true prompts errors completions s t1 c1).1 t2 c2).2 = [] := by
  obtain ⟨p1, hp1⟩ := Option.ne_none_iff_exists'.mp hm1
  obtain ⟨p2, hp2⟩ := Option.ne_none_iff_exists'.mp hm2
  have ht1 : WatcherJS.tick true prompts errors completions s t1 c1
      = ({ s with lastPromptTime := t1, lastContent := c1 }, [.approve]) := by
    simp [WatcherJS.tick, h1, h2, hp1, hcool]
  refine ⟨by rw [ht1], ?_⟩
  rw [ht1]
  have hnot : ¬ WatcherJS.PROMPT_COOLDOWN < t2 - t1 := by omega
  simp [WatcherJS.tick, h3, h4, hp2, hnot]

/-- Witness for C6 (amended): the `[Y/n]` pattern of `watcher.js`, first
detection at 6000 ms (cooldown of 5000 ms elapsed since 0), second
detection on changed content 3000 ms later. -/
theorem c6_watcher_prompt_cooldown_witness :
    (WatcherJS.tick true [WatcherJS.ynPattern] [] [] ⟨"", 0, 0⟩ 6000 "Install? [Y/n]").2
      = [.approve]
    ∧ (WatcherJS.tick true [WatcherJS.ynPattern] [] []
        (WatcherJS.tick true [WatcherJS.ynPattern] [] [] ⟨"", 0, 0⟩ 6000 "Install? [Y/n]").1
        9000 "Retry? [Y/n]").2 = [] :=
  c6_watcher_prompt_cooldown [WatcherJS.ynPattern] [] [] ⟨"", 0, 0⟩ 6000 9000
    "Install? [Y/n]" "Retry? [Y/n]" (by decide) (by decide)
    (by rw [show WatcherJS.findMatch [WatcherJS.ynPattern] (lastLines 15 "Install? [Y/n]")
          = some WatcherJS.ynPattern from rfl]
        exact Option.some_ne_none _)
    (by decide) (by decide) (by decide)
    (by rw [show WatcherJS.findMatch [WatcherJS.ynPattern] (lastLines 15 "Retry? [Y/n]")
          = some WatcherJS.ynPattern from rfl]
        exact Option.some_ne_none _)
    (by decide)

namespace CCMap

theorem mem_mdel {α : Type} {p : Nat × α} {id : Nat} {m : List (Nat × α)} :
    p ∈ mdel id m ↔ p ∈ m ∧ p.1 ≠ id := by
  induction m with
  | nil => simp [mdel]
  | cons q rest ih =>
    obtain ⟨k, w⟩ := q
    by_cases hk : k = id
    · rw [show mdel id ((k, w) :: rest) = mdel id rest by simp [mdel, hk]]
      rw [ih]
      constructor
      · rintro ⟨hp, hne⟩
        exact ⟨List.mem_cons_of_mem _ hp, hne⟩
      · rintro ⟨hp, hne⟩
        rcases List.mem_cons.mp hp with heq | hmem
        · exact absurd (by rw [heq, hk]) hne
        · exact ⟨hmem, hne⟩
    · rw [show mdel id ((k, w) :: rest) = (k, w) :: mdel id rest by simp [mdel, hk]]
      constructor
      · intro hp
        rcases List.mem_cons.mp hp with heq | hmem
        · exact ⟨by rw [heq]; exact List.mem_cons_self _ _, by rw [heq]; exact hk⟩
        · obtain ⟨h1, h2⟩ := ih.mp hmem
          exact ⟨List.mem_cons_of_mem _ h1, h2⟩
      · rintro ⟨hp, hne⟩
        rcases List.mem_cons.mp hp with heq | hmem
        · rw [heq]; exact List.mem_cons_self _ _
        · exact List.mem_cons_of_mem _ (ih.mpr ⟨hmem, hne⟩)

theorem delete_all_keys {α : Type} :
    ∀ (ids : List Nat) (m : List (Nat × α)), (∀ p ∈ m, p.1 ∈ ids) →
      ids.foldl (fun acc i => mdel i acc) m = [] := by
  intro ids
  induction ids with
  | nil =>
    intro m h
    cases m with
    | nil => rfl
    | cons q rest => exact absurd (h q (List.mem_cons_self _ _)) (List.not_mem_nil _)
  | cons i ids ih =>
    intro m h
    rw [List.foldl_cons]
    refine ih (mdel i m) ?_
    intro p hp
    obtain ⟨hmem, hne⟩ := mem_mdel.mp hp
    rcases List.mem_cons.mp (h p hmem) with heq | htl
    · exact absurd heq hne
    · exact htl

end CCMap

namespace Index

/-- Helper: a `close` whose adapter step does not throw always succeeds and
leaves the registry with the entry deleted (whether or not it existed). -/
theorem close_ok {fail : Nat → Bool} {id : Nat} (hf : fail id = false)
    (st : CCState) :
    ∃ effs, close fail id st = (.ok effs, ⟨st.sessionCounter, mdel id st.sessions⟩) := by
  cases hs : mget id st.sessions with
  | none =>
    refine ⟨[], ?_⟩
    simp [close, hs, mdel_of_mget_none hs]
  | some s =>
    refine ⟨(if s.watcher.isSome then [Effect.stopWatcherE] else []) ++
        ((match s.recording with
          | some r => [Effect.stopRecordingE r.videoPath]
          | none => []) ++
         [.focus, .key "escape", .typeTextE "/exit", .enter]), ?_⟩
    simp [close, hs, hf, mdel_mset_self]

/-- Helper: the `closeAll` loop over a key list, when no individual close
throws, succeeds and folds a delete per key over the registry. -/
theorem closeAllGo_ok (fail : Nat → Bool) :
    ∀ (ids : List Nat) (st : CCState), (∀ i ∈ ids, fail i = false) →
      closeAllGo fail ids st
        = (.ok (), ⟨st.sessionCounter, ids.foldl (fun acc i => mdel i acc) st.sessions⟩) := by
  intro ids
  induction ids with
  | nil =>
    intro st h
    simp [closeAllGo]
  | cons i ids ih =>
    intro st h
    obtain ⟨effs, hc⟩ := close_ok (h i (List.mem_cons_self _ _)) st
    simp only [closeAllGo, hc]
    rw [ih _ (fun j hj => h j (List.mem_cons_of_mem _ hj))]
    simp

end Index

/-- Counterexample for C8 as stated: with two active sessions and an adapter
exception thrown while closing session 1, `closeAll` propagates the error,
never reaches session 2 (which stays in the registry), and returns no
aggregate result (`src/index.js:758-762`). -/
theorem c8_closeAll_aborts_counterexample :
    Index.closeAll (fun i => i == 1)
        ⟨2, [(1, ⟨1, "/a", 0, 0, [], true, none, none⟩),
             (2, ⟨2, "/b", 0, 0, [], true, none, none⟩)]⟩
      = (.error (), ⟨2, [(1, ⟨1, "/a", 0, 0, [], true, none, none⟩),
                         (2, ⟨2, "/b", 0, 0, [], true, none, none⟩)]⟩)
    ∧ mget 2 (Index.closeAll (fun i => i == 1)
        ⟨2, [(1, ⟨1, "/a", 0, 0, [], true, none, none⟩),
             (2, ⟨2, "/b", 0, 0, [], true, none, none⟩)]⟩).2.sessions
      = some ⟨2, "/b", 0, 0, [], true, none, none⟩ := by
  constructor
  · rfl
  · rfl

/-- C8 (amended): `closeAll` awaits `close` on every session ID present at
invocation, in insertion order, and returns no aggregate result; it
installs no per-session failure handling, so it closes every active session
exactly when no individual close throws — in which case the registry is
left empty (`src/index.js:758-762`). -/
theorem c8_closeAll_no_failure (fail : Nat → Bool) (st : Index.CCState)
    (h : ∀ i ∈ mkeys st.sessions, fail i = false) :
    Index.closeAll fail st = (.ok (), ⟨st.sessionCounter, []⟩) := by
  rw [Index.closeAll, Index.closeAllGo_ok fail (mkeys st.sessions) st h]
  have hdel : (mkeys st.sessions).foldl (fun acc i => mdel i acc) st.sessions = [] :=
    delete_all_keys _ _ (fun p hp => List.mem_map_of_mem _ hp)
  rw [hdel]

/-- Witness for C8 (amended): a concrete two-session registry with no
adapter failures is emptied. -/
theorem c8_closeAll_no_failure_witness :
    Index.closeAll (fun _ => false)
        ⟨2, [(1, ⟨1, "/a", 0, 0, [], true, none, none⟩),
             (2, ⟨2, "/b", 0, 0, [], true, none, none⟩)]⟩
      = (.ok (), ⟨2, []⟩) :=
  c8_closeAll_no_failure (fun _ => false)
    ⟨2, [(1, ⟨1, "/a", 0, 0, [], true, none, none⟩),
         (2, ⟨2, "/b", 0, 0, [], true, none, none⟩)]⟩
    (fun _ _ => rfl)
